import Mathlib

/-!
Verification development for the AI-Gym-Feedback-Companion repository.

It embeds, as executable Lean definitions:
  * the chat client state logic of `app/static/js/chat.js` (onboarding phase
    cache, request routing, generate-plan button guard);
  * `mapPlanToCalendarEvents` of `mobile/src/utils/planMapping.js`;
  * the mobile API wrappers (`authAPI`, `chatAPI`) built on axios;
  * the server-side health-onboarding state machine, which is not present in
    the repository snapshot and is therefore modelled from the spec.

JavaScript dynamic values are embedded with explicit `Option` fields for
absent/falsy values and a `JsArr` type for the `Array.isArray` checks.
-/

namespace GymApp

/-! ## JavaScript string helpers -/

/-- Truthiness of an optional JS string value: `undefined`/`null` and the
empty string are falsy. -/
def strTruthy : Option String → Bool
  | none => false
  | some s => !(s == "")

/-- The JS idiom `v || d` on an optional string: the default `d` is used when
the field is absent or the empty string. -/
def jsOr (v : Option String) (d : String) : String :=
  match v with
  | none => d
  | some s => if s == "" then d else s

/-- Whether `needle` is an initial segment of `hay`. -/
def startsWithSeq : List Char → List Char → Bool
  | [], _ => true
  | _ :: _, [] => false
  | a :: as, b :: bs => a == b && startsWithSeq as bs

/-- Whether `needle` occurs contiguously inside the second list. -/
def containsSeq (needle : List Char) : List Char → Bool
  | [] => needle.isEmpty
  | hay@(_ :: rest) => startsWithSeq needle hay || containsSeq needle rest

/-- JS `s.includes(pat)`. -/
def jsIncludes (s pat : String) : Bool := containsSeq pat.toList s.toList

/-- JS `s.toLowerCase()` restricted to the alphabet the repository uses. -/
def toLowerStr (s : String) : String := String.map Char.toLower s

/-! ## Client model: `app/static/js/chat.js`

The cached onboarding phase is the raw JS value: `none` models the initial
`null`, `some s` a string the client assigned. -/

/-- The two backend chat endpoints the client talks to. -/
inductive Endpoint where
  | healthOnboarding  -- POST /api/chat/health-onboarding
  | chat              -- POST /api/chat
deriving DecidableEq, Repr

/-- Parsed JSON body of an onboarding response as the client reads it. -/
structure OnboardResp where
  success : Bool
  response : Option String
  phase : Option String
  error : Option String
deriving DecidableEq, Repr

/-- Outcome of one client fetch of the onboarding endpoint: either the body
was parsed (with the HTTP `ok` flag), or the fetch/parse rejected. -/
inductive FetchResult where
  | parsed (ok : Bool) (data : OnboardResp)
  | networkError
deriving DecidableEq, Repr

/-- A request the client issues, reduced to endpoint and message body. -/
structure ClientRequest where
  endpoint : Endpoint
  message : String
deriving DecidableEq, Repr

/-- The initial request of the DOMContentLoaded handler:
`fetch('/api/chat/health-onboarding', {body: JSON.stringify({message: ''})})`. -/
def clientInitRequest : ClientRequest := ⟨.healthOnboarding, ""⟩

/-- Phase stored by the DOMContentLoaded handler (chat.js lines 48-61):
`data.phase || 'ask_fixed'` when `data.success && data.response`, otherwise
`'complete'`; `'complete'` as well when the fetch or JSON parse rejects. -/
def clientInitPhase : FetchResult → String
  | .parsed _ d =>
      if d.success && strTruthy d.response then jsOr d.phase "ask_fixed"
      else "complete"
  | .networkError => "complete"

/-- The guard `onboardingPhase === 'ask_fixed' || onboardingPhase ===
'ask_goal' || onboardingPhase === 'follow_up'` used by `handleSend` and the
generate-plan click handler. -/
def isOnboardingPhase (phase : Option String) : Bool :=
  phase == some "ask_fixed" || phase == some "ask_goal" || phase == some "follow_up"

/-- Which endpoint `handleSend` posts the message to (chat.js lines 117-146). -/
def handleSendEndpoint (phase : Option String) : Endpoint :=
  if isOnboardingPhase phase then .healthOnboarding else .chat

/-- The request `handleSend` issues for a message. -/
def handleSendRequest (phase : Option String) (msg : String) : ClientRequest :=
  ⟨handleSendEndpoint phase, msg⟩

/-- The phase cached after `handleSend` processes a response (chat.js lines
124-130): in the onboarding branch, `onboardingPhase = data.phase ||
'complete'` only when `response.ok && data.success`; every other outcome, and
the general-chat branch, leave the cached phase untouched. -/
def clientSendPhase (phase : Option String) (r : FetchResult) : Option String :=
  if isOnboardingPhase phase then
    match r with
    | .parsed ok d => if ok && d.success then some (jsOr d.phase "complete") else phase
    | .networkError => phase
  else phase

/-- The phase field of the server response carried by a fetch outcome, if any. -/
def respPhase : FetchResult → Option String
  | .parsed _ d => d.phase
  | .networkError => none

/-- Whether the outcome satisfies the client acceptance test
`response.ok && data.success`. -/
def respOkSuccess : FetchResult → Bool
  | .parsed ok d => ok && d.success
  | .networkError => false

/-! ### Generate-plan click handler (chat.js lines 75-107) -/

/-- The `userProfile` global of chat.js, fields as the handler reads them. -/
structure UserProfile where
  age : Option Int
  gender : Option String
  height : Option Int
  weight : Option Int
  fitness_goals : Option (List String)
deriving DecidableEq, Repr

/-- `userProfile.age != null || userProfile.height != null ||
userProfile.weight != null || (userProfile.fitness_goals &&
userProfile.fitness_goals.length)`. -/
def hasProfile (u : UserProfile) : Bool :=
  u.age.isSome || u.height.isSome || u.weight.isSome ||
    (match u.fitness_goals with
     | some gs => !gs.isEmpty
     | none => false)

/-- Message rendered while onboarding is unfinished. -/
def setupFirstMsg : String :=
  "Please complete the health setup questions above first, then I can generate your plan."

/-- Message rendered when no profile data is known. -/
def shareGoalMsg : String := "Share your fitness goal in the chat above first."

/-- Generic failure message of the generate-plan handler. -/
def planErrorMsg : String := "Sorry, I encountered an error. Please try again."

/-- Outcome of the `/api/chat` fetch in the generate-plan handler. -/
inductive ChatOutcome where
  | parsed (ok : Bool) (response : Option String) (error : Option String)
  | networkError
deriving DecidableEq, Repr

/-- Observable effect of one generate-plan click: the requests issued, the
messages rendered (raw JS values), and whether the button was disabled for
the duration of a fetch. -/
structure PlanClickTrace where
  requests : List Endpoint
  messages : List (Option String)
  disabledDuringFetch : Bool
deriving DecidableEq, Repr

/-- The generate-plan click handler (chat.js lines 75-107). -/
def generatePlanClick (phase : Option String) (u : UserProfile)
    (o : ChatOutcome) : PlanClickTrace :=
  if isOnboardingPhase phase then
    ⟨[], [some setupFirstMsg], false⟩
  else if !hasProfile u then
    ⟨[], [some shareGoalMsg], false⟩
  else
    match o with
    | .parsed ok resp err =>
        if ok then ⟨[.chat], [resp], true⟩
        else ⟨[.chat], [some (jsOr err planErrorMsg)], true⟩
    | .networkError => ⟨[.chat], [some planErrorMsg], true⟩

/-! ## Plan mapper: `mobile/src/utils/planMapping.js` -/

/-- A JS value inspected with `Array.isArray`: either not an array at all, or
an array of elements. -/
inductive JsArr (α : Type) where
  | notArr
  | arr (elems : List α)
deriving DecidableEq, Repr

/-- The element list, with the `Array.isArray(x) ? x : []` coercion. -/
def JsArr.elemsD {α : Type} : JsArr α → List α
  | .notArr => []
  | .arr l => l

/-- A day object of a plan week, fields as `mapPlanToCalendarEvents` reads
them; exercises are kept opaque as strings. -/
structure PlanDay where
  date : Option String
  workoutType : Option String
  exercises : JsArr String
deriving DecidableEq, Repr

/-- A week object; `none` entries in `days` model falsy elements. -/
structure PlanWeek where
  days : JsArr (Option PlanDay)
deriving DecidableEq, Repr

/-- A plan object; `none` entries in `weeks` model falsy elements. -/
structure Plan where
  weeks : JsArr (Option PlanWeek)
deriving DecidableEq, Repr

/-- A calendar event as pushed by `mapPlanToCalendarEvents`. -/
structure CalendarEvent where
  id : String
  title : String
  date : String
  type : String
  metadata : List String
deriving DecidableEq, Repr

/-- The event built for a day that passed the guards, mirroring the loop body
of `mapPlanToCalendarEvents`. -/
def dayEvent (weekIndex dayIndex : Nat) (day : PlanDay) : CalendarEvent :=
  let workoutType := jsOr day.workoutType "Workout"
  let exercises := day.exercises.elemsD
  let isRest := jsIncludes (toLowerStr workoutType) "rest" || exercises.isEmpty
  { id := toString (weekIndex + 1) ++ "-" ++ toString (dayIndex + 1) ++ "-"
          ++ day.date.getD ""
    title := workoutType
    date := day.date.getD ""
    type := if isRest then "rest" else "workout"
    metadata := exercises }

/-- One iteration of the inner `week.days.forEach`: skip falsy days and days
without a truthy `date`, otherwise push the event. -/
def pushDay (weekIndex : Nat) (events : List CalendarEvent)
    (di : Nat × Option PlanDay) : List CalendarEvent :=
  match di.2 with
  | none => events
  | some day =>
      if strTruthy day.date then events ++ [dayEvent weekIndex di.1 day]
      else events

/-- One iteration of the outer `plan.weeks.forEach`: skip falsy weeks and
weeks whose `days` is not an array. -/
def pushWeek (events : List CalendarEvent) (wi : Nat × Option PlanWeek) :
    List CalendarEvent :=
  match wi.2 with
  | none => events
  | some week =>
      match week.days with
      | .notArr => events
      | .arr ds => ds.enum.foldl (pushDay wi.1) events

/-- `mapPlanToCalendarEvents` (planMapping.js lines 3-34): guard, then the two
nested forEach loops accumulating `events`. -/
def mapPlanToCalendarEvents (plan : Option Plan) : List CalendarEvent :=
  match plan with
  | none => []
  | some pl =>
      match pl.weeks with
      | .notArr => []
      | .arr ws => ws.enum.foldl pushWeek []

/-- Events contributed by one indexed day entry (specification helper). -/
def dayEvents (weekIndex : Nat) (di : Nat × Option PlanDay) :
    List CalendarEvent :=
  match di.2 with
  | none => []
  | some day =>
      if strTruthy day.date then [dayEvent weekIndex di.1 day] else []

/-- Events contributed by one indexed week entry (specification helper). -/
def weekEvents (wi : Nat × Option PlanWeek) : List CalendarEvent :=
  match wi.2 with
  | none => []
  | some week =>
      match week.days with
      | .notArr => []
      | .arr ds => ds.enum.flatMap (dayEvents wi.1)

/-! ## Mobile API wrappers: `mobile` services api (axios variant)

Each wrapper is a total function of the collaborator outcomes it awaits,
returning the record the JS function returns; the try/catch of the source is
the match on the outcome, so the wrappers cannot throw. -/

/-- The `error.response?.data` body of a failed axios call. -/
structure ErrRespData where
  error : Option String
deriving DecidableEq, Repr

/-- The `error.response` of a failed axios call, absent on network errors. -/
structure ErrResp where
  data : Option ErrRespData
deriving DecidableEq, Repr

/-- The error thrown by axios. -/
structure AxiosError where
  response : Option ErrResp
deriving DecidableEq, Repr

/-- `error.response?.data?.error` with optional chaining. -/
def axiosErrMsg (e : AxiosError) : Option String :=
  match e.response with
  | none => none
  | some r =>
      match r.data with
      | none => none
      | some d => d.error

/-- Outcome of an awaited axios request: resolves with data or throws. -/
inductive AxiosOutcome (α : Type) where
  | ok (data : α)
  | err (e : AxiosError)
deriving DecidableEq, Repr

/-- Outcome of the awaited AsyncStorage writes: succeed or throw. -/
inductive StorageOutcome where
  | ok
  | throws
deriving DecidableEq, Repr

/-- The record every wrapper returns. -/
structure ApiCallResult (α : Type) where
  success : Bool
  error : Option String
  data : Option α
deriving DecidableEq, Repr

/-- The `user` object of an auth response body. -/
structure AuthUser where
  username : String
  id : Int
deriving DecidableEq, Repr

/-- Response body of the auth endpoints as `login` reads it. -/
structure LoginData where
  user : Option AuthUser
deriving DecidableEq, Repr

/-- Fallback error message of `authAPI.register`. -/
def registrationFailedMsg : String := "Registration failed. Please try again."

/-- Fallback error message of `authAPI.login`. -/
def loginFailedMsg : String := "Login failed. Please try again."

/-- Error message of `authAPI.logout`. -/
def logoutFailedMsg : String := "Logout failed"

/-- Fallback error message of `chatAPI.sendMessage`. -/
def sendFailedMsg : String := "Failed to send message"

/-- `authAPI.register`: post, return `{success:true, data}` or catch into
`{success:false, error: error.response?.data?.error || fallback}`. -/
def authRegister (α : Type) (o : AxiosOutcome α) : ApiCallResult α :=
  match o with
  | .ok d => ⟨true, none, some d⟩
  | .err e => ⟨false, some (jsOr (axiosErrMsg e) registrationFailedMsg), none⟩

/-- `authAPI.login`: post, store the user with AsyncStorage when present (a
storage throw is caught by the same catch, whose error has no `response`),
then return `{success:true, data}`; the catch yields
`{success:false, error: error.response?.data?.error || fallback}`. -/
def authLogin (o : AxiosOutcome LoginData) (st : StorageOutcome) :
    ApiCallResult LoginData :=
  match o with
  | .ok d =>
      match d.user with
      | some _ =>
          match st with
          | .ok => ⟨true, none, some d⟩
          | .throws => ⟨false, some loginFailedMsg, none⟩
      | none => ⟨true, none, some d⟩
  | .err e => ⟨false, some (jsOr (axiosErrMsg e) loginFailedMsg), none⟩

/-- `authAPI.logout`: remove the three stored items; a throw is caught into
`{success:false, error:'Logout failed'}`. -/
def authLogout (st : StorageOutcome) : ApiCallResult Unit :=
  match st with
  | .ok => ⟨true, none, none⟩
  | .throws => ⟨false, some logoutFailedMsg, none⟩

/-- `authAPI.checkSession`: get `/auth/check`; the catch returns
`{success:false}` without an error field. -/
def authCheckSession (α : Type) (o : AxiosOutcome α) : ApiCallResult α :=
  match o with
  | .ok d => ⟨true, none, some d⟩
  | .err _ => ⟨false, none, none⟩

/-- `chatAPI.sendMessage`: post `/api/chat`; the catch yields
`{success:false, error: error.response?.data?.error || fallback}`. -/
def chatSendMessage (α : Type) (o : AxiosOutcome α) : ApiCallResult α :=
  match o with
  | .ok d => ⟨true, none, some d⟩
  | .err e => ⟨false, some (jsOr (axiosErrMsg e) sendFailedMsg), none⟩

/-! ## Server-side onboarding state machine

The Flask route behind `POST /api/chat/health-onboarding` is not part of this
repository snapshot; the definitions below are modelled from the spec
(sections 3, 4.1, 6 and 7). -/

/-- Modelled from the spec: the onboarding phase stored in the health profile
record (the route implementation is missing from the snapshot). -/
inductive SPhase where
  | ask_fixed
  | ask_goal
  | follow_up
  | complete
deriving DecidableEq, Repr

/-- Position of a phase along the chain
`ask_fixed, ask_goal, follow_up, complete`. -/
def SPhase.idx : SPhase → Nat
  | .ask_fixed => 0
  | .ask_goal => 1
  | .follow_up => 2
  | .complete => 3

/-- The string the phase is serialized as in responses. -/
def SPhase.toStr : SPhase → String
  | .ask_fixed => "ask_fixed"
  | .ask_goal => "ask_goal"
  | .follow_up => "follow_up"
  | .complete => "complete"

/-- Modelled from the spec: the fixed stats of a health profile record,
read-only to the onboarding flow. -/
structure FixedStats where
  age : Option Int
  height : Option Int
  weight : Option Int
  gender : Option String
deriving DecidableEq, Repr

/-- Modelled from the spec: the per-user HealthProfile record (the store
schema of the missing route). -/
structure HealthProfile where
  stats : FixedStats
  fitness_goal : Option String
  qa_pairs : List (String × String)
  pending_questions : List String
  phase : SPhase
deriving DecidableEq, Repr

/-- A freshly created profile record for a user with the given fixed stats. -/
def newProfile (s : FixedStats) : HealthProfile :=
  ⟨s, none, [], [], .ask_fixed⟩

/-- Modelled from the spec: outcome of the single text-generation collaborator
call (a list of follow-up questions, or a failure treated as zero
questions). -/
inductive GenOutcome where
  | ok (questions : List String)
  | failure
deriving DecidableEq, Repr

/-- Modelled from the spec: outcome of the profile-store write performed by a
transition. -/
inductive StoreOutcome where
  | ok
  | unavailable
deriving DecidableEq, Repr

/-- Response body of the onboarding endpoint. -/
structure ServerResponse where
  success : Bool
  response : String
  phase : SPhase
  error : Option String
deriving DecidableEq, Repr

/-- Result of one request: the response sent and the persisted profile. -/
structure StepResult where
  resp : ServerResponse
  profile : HealthProfile
deriving DecidableEq, Repr

/-- Rendering of an optional numeric stat. -/
def renderOptInt : Option Int → String
  | none => "not set"
  | some n => toString n

/-- The fixed-stats introduction line of the first onboarding response. -/
def statsIntro (s : FixedStats) : String :=
  "Here is what I have on file: age " ++ renderOptInt s.age
    ++ ", height " ++ renderOptInt s.height
    ++ ", weight " ++ renderOptInt s.weight
    ++ ", gender " ++ s.gender.getD "not set" ++ ". "

/-- The goal question asked after the fixed stats. -/
def goalQuestion : String := "What is your fitness goal?"

/-- The completion message presented when no questions remain. -/
def completionMessage : String := "I have saved your answers. Ask me anything."

/-- The generic failure message for an unavailable store. -/
def storeFailureMsg : String := "Something went wrong. Please try again."

/-- The failure result: `success:false`, no profile mutation, phase
unchanged. -/
def failResult (p : HealthProfile) : StepResult :=
  ⟨⟨false, storeFailureMsg, p.phase, some storeFailureMsg⟩, p⟩

/-- The follow-up list obtained from the collaborator: a failure is treated
as zero questions. -/
def genQuestions : GenOutcome → List String
  | .ok qs => qs
  | .failure => []

/-- Modelled from the spec: one request to `POST /api/chat/health-onboarding`
(section 4.1 state table with sections 4.1/7 failure semantics). `complete`
bypasses onboarding and touches nothing; otherwise the transition persists
the record, so an unavailable store returns failure without advancing;
`ask_fixed` renders the stats plus the goal question; `ask_goal` stores the
goal and either presents the first generated follow-up question or, with zero
questions, degrades directly to `complete`; `follow_up` pops the next pending
question, appends the question/answer pair, and completes when none remain. -/
def onboardingStep (p : HealthProfile) (msg : String) (gen : GenOutcome)
    (store : StoreOutcome) : StepResult :=
  match p.phase, store with
  | .complete, _ => ⟨⟨true, "", .complete, none⟩, p⟩
  | .ask_fixed, .unavailable => failResult p
  | .ask_goal, .unavailable => failResult p
  | .follow_up, .unavailable => failResult p
  | .ask_fixed, .ok =>
      let p2 := { p with phase := .ask_goal }
      ⟨⟨true, statsIntro p.stats ++ goalQuestion, .ask_goal, none⟩, p2⟩
  | .ask_goal, .ok =>
      let qs := genQuestions gen
      if qs.isEmpty then
        let p2 := { p with fitness_goal := some msg, phase := .complete }
        ⟨⟨true, completionMessage, .complete, none⟩, p2⟩
      else
        let p2 := { p with fitness_goal := some msg,
                           pending_questions := qs, phase := .follow_up }
        ⟨⟨true, qs.headD "", .follow_up, none⟩, p2⟩
  | .follow_up, .ok =>
      match p.pending_questions with
      | [] =>
          let p2 := { p with phase := .complete }
          ⟨⟨true, completionMessage, .complete, none⟩, p2⟩
      | q :: rest =>
          let ph := if rest.isEmpty then SPhase.complete else SPhase.follow_up
          let p2 := { p with qa_pairs := p.qa_pairs ++ [(q, msg)],
                             pending_questions := rest, phase := ph }
          ⟨⟨true, if rest.isEmpty then completionMessage else rest.headD "",
            ph, none⟩, p2⟩

/-- One user message together with the collaborator outcomes met while the
server processes it. -/
structure StepInput where
  msg : String
  gen : GenOutcome
  store : StoreOutcome
deriving DecidableEq, Repr

/-- The profile after a sequence of requests. -/
def onboardingRun (p : HealthProfile) : List StepInput → HealthProfile
  | [] => p
  | i :: is => onboardingRun (onboardingStep p i.msg i.gen i.store).profile is

/-- How the client parses a successfully transported onboarding response. -/
def transport (r : ServerResponse) : FetchResult :=
  .parsed true ⟨r.success, some r.response, some r.phase.toStr, r.error⟩

/-! ## Helper lemmas -/

/-- The phases a single transition may lead to from each phase, along the
chain `ask_fixed, ask_goal, follow_up, complete`. -/
def allowedNext : SPhase → List SPhase
  | .ask_fixed => [.ask_fixed, .ask_goal]
  | .ask_goal => [.ask_goal, .follow_up, .complete]
  | .follow_up => [.follow_up, .complete]
  | .complete => [.complete]

lemma allowedNext_le (a b : SPhase) (h : b ∈ allowedNext a) :
    a.idx ≤ b.idx := by
  cases a <;> cases b <;> simp_all [allowedNext, SPhase.idx]

lemma step_phase_mem (p : HealthProfile) (msg : String) (gen : GenOutcome)
    (store : StoreOutcome) :
    (onboardingStep p msg gen store).profile.phase ∈ allowedNext p.phase := by
  obtain ⟨st, g, qa, pend, ph⟩ := p
  cases ph <;> cases store <;> cases pend <;>
    simp only [onboardingStep, failResult, allowedNext] <;>
      (try split) <;> simp_all

lemma step_phase_le (p : HealthProfile) (msg : String) (gen : GenOutcome)
    (store : StoreOutcome) :
    p.phase.idx ≤ (onboardingStep p msg gen store).profile.phase.idx :=
  allowedNext_le _ _ (step_phase_mem p msg gen store)

lemma run_append (p : HealthProfile) (as bs : List StepInput) :
    onboardingRun p (as ++ bs) = onboardingRun (onboardingRun p as) bs := by
  induction as generalizing p with
  | nil => rfl
  | cons a as ih => simp [onboardingRun, ih]

lemma run_phase_le (p : HealthProfile) (is : List StepInput) :
    p.phase.idx ≤ (onboardingRun p is).phase.idx := by
  induction is generalizing p with
  | nil => exact le_refl _
  | cons i is ih =>
      exact le_trans (step_phase_le p i.msg i.gen i.store) (ih _)

lemma step_qa_extends (p : HealthProfile) (msg : String) (gen : GenOutcome)
    (store : StoreOutcome) :
    ∃ t, (onboardingStep p msg gen store).profile.qa_pairs
      = p.qa_pairs ++ t := by
  obtain ⟨st, g, qa, pend, ph⟩ := p
  cases ph <;> cases store <;> cases pend <;>
    simp only [onboardingStep, failResult] <;>
      (try split) <;>
        first
          | exact ⟨_, rfl⟩
          | (refine ⟨[], ?_⟩; simp)

lemma run_qa_extends (p : HealthProfile) (is : List StepInput) :
    ∃ t, (onboardingRun p is).qa_pairs = p.qa_pairs ++ t := by
  induction is generalizing p with
  | nil => exact ⟨[], by simp [onboardingRun]⟩
  | cons i is ih =>
      obtain ⟨t2, h2⟩ := ih (onboardingStep p i.msg i.gen i.store).profile
      obtain ⟨t1, h1⟩ := step_qa_extends p i.msg i.gen i.store
      exact ⟨t1 ++ t2, by simp [onboardingRun, h2, h1]⟩

lemma pushDay_eq (w : Nat) (events : List CalendarEvent)
    (di : Nat × Option PlanDay) :
    pushDay w events di = events ++ dayEvents w di := by
  obtain ⟨j, d⟩ := di
  cases d <;> simp only [pushDay, dayEvents] <;> (try split) <;> simp

lemma foldl_pushDay (w : Nat) (l : List (Nat × Option PlanDay))
    (acc : List CalendarEvent) :
    l.foldl (pushDay w) acc = acc ++ l.flatMap (dayEvents w) := by
  induction l generalizing acc with
  | nil => simp
  | cons x xs ih =>
      simp only [List.foldl_cons, List.flatMap_cons, pushDay_eq, ih,
        List.append_assoc]

lemma pushWeek_eq (events : List CalendarEvent) (wi : Nat × Option PlanWeek) :
    pushWeek events wi = events ++ weekEvents wi := by
  obtain ⟨i, w⟩ := wi
  cases w with
  | none => simp [pushWeek, weekEvents]
  | some wk =>
      cases hw : wk.days with
      | notArr => simp [pushWeek, weekEvents, hw]
      | arr ds => simp [pushWeek, weekEvents, hw, foldl_pushDay]

lemma foldl_pushWeek (l : List (Nat × Option PlanWeek))
    (acc : List CalendarEvent) :
    l.foldl pushWeek acc = acc ++ l.flatMap weekEvents := by
  induction l generalizing acc with
  | nil => simp
  | cons x xs ih =>
      simp only [List.foldl_cons, List.flatMap_cons, pushWeek_eq, ih,
        List.append_assoc]

/-! ## Claim theorems -/

/-- Claim C1: for every user profile and every sequence of onboarding
messages, each transition of the (spec-modelled) onboarding state machine
leads only to a phase allowed by the forward chain
`ask_fixed, ask_goal, follow_up*, complete`, and along any run the phase
position never decreases, so the phase never returns to an earlier one. -/
theorem c1_phase_monotone (p : HealthProfile) (i : StepInput)
    (pre post : List StepInput) :
    (onboardingStep p i.msg i.gen i.store).profile.phase ∈ allowedNext p.phase
      ∧ (onboardingRun p pre).phase.idx
          ≤ (onboardingRun p (pre ++ post)).phase.idx := by
  refine ⟨step_phase_mem p i.msg i.gen i.store, ?_⟩
  rw [run_append]
  exact run_phase_le _ _

/-- Claim C2: once the cached phase is `complete`, `handleSend` routes every
message to `POST /api/chat`, never to the onboarding endpoint, and the cached
phase stays `complete` whatever the fetch outcome. -/
theorem c2_complete_bypass (msg : String) (r : FetchResult) :
    handleSendRequest (some "complete") msg = ⟨Endpoint.chat, msg⟩ ∧
    handleSendEndpoint (some "complete") ≠ Endpoint.healthOnboarding ∧
    clientSendPhase (some "complete") r = some "complete" := by
  have h : isOnboardingPhase (some "complete") = false := by decide
  refine ⟨?_, ?_, ?_⟩ <;>
    simp [handleSendRequest, handleSendEndpoint, clientSendPhase, h]

/-- Claim C3: a store failure on any onboarding message yields
`success:false` with the profile (hence the phase) unchanged, so resubmitting
the message re-attempts the very same transition; in particular a failure
while storing the goal leaves the phase at `ask_goal`; and on the client a
response that is not ok or not successful leaves the cached phase as it
was. -/
theorem c3_store_failure (p : HealthProfile) (msg : String)
    (gen gen2 : GenOutcome) (cph : Option String) (r : FetchResult)
    (hp : p.phase ≠ SPhase.complete) (hr : respOkSuccess r = false) :
    (onboardingStep p msg gen .unavailable).resp.success = false ∧
    (onboardingStep p msg gen .unavailable).profile = p ∧
    (onboardingStep p msg gen .unavailable).resp.phase = p.phase ∧
    onboardingStep (onboardingStep p msg gen .unavailable).profile msg gen2
        .ok
      = onboardingStep p msg gen2 .ok ∧
    (p.phase = SPhase.ask_goal →
      (onboardingStep p msg gen .unavailable).profile.phase
        = SPhase.ask_goal) ∧
    clientSendPhase cph r = cph := by
  have hstep : onboardingStep p msg gen .unavailable = failResult p := by
    obtain ⟨st, g, qa, pend, ph⟩ := p
    cases ph <;> simp_all [onboardingStep]
  have hc : clientSendPhase cph r = cph := by
    cases r with
    | parsed ok dd =>
        simp only [respOkSuccess] at hr
        simp [clientSendPhase, hr]
    | networkError => simp [clientSendPhase]
  refine ⟨by simp [hstep, failResult], by simp [hstep, failResult],
    by simp [hstep, failResult], by simp [hstep, failResult],
    fun hg => by simp [hstep, failResult, hg], hc⟩

/-- Concrete instance of the store-failure behavior at the goal step. -/
theorem c3_store_failure_witness :
    (onboardingStep ⟨⟨none, none, none, none⟩, none, [], [],
        SPhase.ask_goal⟩ "lose weight" (GenOutcome.ok ["q1"])
        .unavailable).resp.success = false ∧
    (onboardingStep ⟨⟨none, none, none, none⟩, none, [], [],
        SPhase.ask_goal⟩ "lose weight" (GenOutcome.ok ["q1"])
        .unavailable).profile
      = ⟨⟨none, none, none, none⟩, none, [], [], SPhase.ask_goal⟩ ∧
    (onboardingStep ⟨⟨none, none, none, none⟩, none, [], [],
        SPhase.ask_goal⟩ "lose weight" (GenOutcome.ok ["q1"])
        .unavailable).resp.phase
      = (⟨⟨none, none, none, none⟩, none, [], [],
          SPhase.ask_goal⟩ : HealthProfile).phase ∧
    onboardingStep (onboardingStep ⟨⟨none, none, none, none⟩, none, [], [],
        SPhase.ask_goal⟩ "lose weight" (GenOutcome.ok ["q1"])
        .unavailable).profile "lose weight" (GenOutcome.ok ["q1"]) .ok
      = onboardingStep ⟨⟨none, none, none, none⟩, none, [], [],
          SPhase.ask_goal⟩ "lose weight" (GenOutcome.ok ["q1"]) .ok ∧
    ((⟨⟨none, none, none, none⟩, none, [], [],
        SPhase.ask_goal⟩ : HealthProfile).phase = SPhase.ask_goal →
      (onboardingStep ⟨⟨none, none, none, none⟩, none, [], [],
          SPhase.ask_goal⟩ "lose weight" (GenOutcome.ok ["q1"])
          .unavailable).profile.phase = SPhase.ask_goal) ∧
    clientSendPhase (some "ask_goal") FetchResult.networkError
      = some "ask_goal" :=
  c3_store_failure ⟨⟨none, none, none, none⟩, none, [], [], SPhase.ask_goal⟩
    "lose weight" (GenOutcome.ok ["q1"]) (GenOutcome.ok ["q1"])
    (some "ask_goal") FetchResult.networkError (by decide) rfl

/-- Claim C4: when the goal is answered and the text-generation collaborator
fails or returns zero questions, the flow moves from `ask_goal` directly to
`complete` on that message, with a successful response. -/
theorem c4_zero_questions_complete (p : HealthProfile) (msg : String)
    (gen : GenOutcome) (hp : p.phase = SPhase.ask_goal)
    (hg : gen = GenOutcome.failure ∨ genQuestions gen = []) :
    (onboardingStep p msg gen .ok).resp.success = true ∧
    (onboardingStep p msg gen .ok).resp.phase = SPhase.complete ∧
    (onboardingStep p msg gen .ok).profile.phase = SPhase.complete := by
  have hq : genQuestions gen = [] := by
    rcases hg with h | h
    · subst h; rfl
    · exact h
  obtain ⟨st, g, qa, pend, ph⟩ := p
  cases ph <;> simp_all [onboardingStep]

/-- Concrete instance of the degrade-to-complete boundary case. -/
theorem c4_zero_questions_complete_witness :
    (onboardingStep ⟨⟨none, none, none, none⟩, none, [], [],
        SPhase.ask_goal⟩ "lose weight" GenOutcome.failure .ok).resp.success
      = true ∧
    (onboardingStep ⟨⟨none, none, none, none⟩, none, [], [],
        SPhase.ask_goal⟩ "lose weight" GenOutcome.failure .ok).resp.phase
      = SPhase.complete ∧
    (onboardingStep ⟨⟨none, none, none, none⟩, none, [], [],
        SPhase.ask_goal⟩ "lose weight" GenOutcome.failure .ok).profile.phase
      = SPhase.complete :=
  c4_zero_questions_complete
    ⟨⟨none, none, none, none⟩, none, [], [], SPhase.ask_goal⟩
    "lose weight" GenOutcome.failure rfl (Or.inl rfl)

/-- Claim C5: on a new session the client posts `{message: ""}` to the
onboarding endpoint; the first transition renders the fixed stats together
with the goal question, succeeds, and lands on `ask_goal`, which is also the
phase the client then caches. -/
theorem c5_initial_load (s : FixedStats) (gen : GenOutcome) :
    clientInitRequest = ⟨Endpoint.healthOnboarding, ""⟩ ∧
    (onboardingStep (newProfile s) "" gen .ok).resp.success = true ∧
    (onboardingStep (newProfile s) "" gen .ok).resp.response
      = statsIntro s ++ goalQuestion ∧
    (onboardingStep (newProfile s) "" gen .ok).resp.phase = SPhase.ask_goal ∧
    (onboardingStep (newProfile s) "" gen .ok).profile.phase
      = SPhase.ask_goal ∧
    clientInitPhase
        (transport (onboardingStep (newProfile s) "" gen .ok).resp)
      = "ask_goal" := by
  refine ⟨rfl, rfl, rfl, rfl, rfl, ?_⟩
  have hne : statsIntro s ++ goalQuestion ≠ "" := by
    intro h
    have h2 := congrArg String.length h
    simp [String.length_append] at h2
    exact absurd h2.2 (by decide)
  have hb : (statsIntro s ++ goalQuestion == "") = false := by simp [hne]
  simp [clientInitPhase, transport, onboardingStep, newProfile, SPhase.toStr,
    strTruthy, jsOr, hb]

/-- Claim C6 (counterexample): on a failed initial load the client caches the
phase `complete` although the outcome carries no server response phase at
all, so the cached value is not an echo of a server-provided phase. -/
theorem c6_phase_echo_counterexample :
    clientInitPhase FetchResult.networkError = "complete" ∧
    respPhase FetchResult.networkError = none ∧
    respPhase FetchResult.networkError
      ≠ some (clientInitPhase FetchResult.networkError) :=
  ⟨rfl, rfl, by simp [respPhase]⟩

/-- Claim C6 (amended): every value the client stores in its phase variable
is either the phase field of the just-received server response, or one of the
fixed fallbacks the client chooses itself — `ask_fixed` or `complete` when
the response lacks a usable phase or the initial load fails — while a
rejected onboarding send leaves the cached value unchanged. -/
theorem c6_phase_echo_amended (r : FetchResult) (cph : Option String) :
    (respPhase r = some (clientInitPhase r)
      ∨ clientInitPhase r = "ask_fixed" ∨ clientInitPhase r = "complete") ∧
    (respPhase r = clientSendPhase cph r
      ∨ clientSendPhase cph r = cph
      ∨ clientSendPhase cph r = some "complete") := by
  constructor
  · cases r with
    | networkError => exact Or.inr (Or.inr rfl)
    | parsed ok dd =>
        by_cases hs : (dd.success && strTruthy dd.response) = true
        · cases hph : dd.phase with
          | none =>
              exact Or.inr (Or.inl (by simp [clientInitPhase, hs, hph, jsOr]))
          | some s =>
              by_cases he : s = ""
              · subst he
                exact Or.inr
                  (Or.inl (by simp [clientInitPhase, hs, hph, jsOr]))
              · exact Or.inl
                  (by simp [respPhase, clientInitPhase, hs, hph, jsOr, he])
        · exact Or.inr (Or.inr (by simp [clientInitPhase, hs]))
  · by_cases ho : isOnboardingPhase cph = true
    · cases r with
      | networkError => exact Or.inr (Or.inl (by simp [clientSendPhase, ho]))
      | parsed ok dd =>
          by_cases hs : (ok && dd.success) = true
          · cases hph : dd.phase with
            | none =>
                exact Or.inr
                  (Or.inr (by simp [clientSendPhase, ho, hs, hph, jsOr]))
            | some s =>
                by_cases he : s = ""
                · subst he
                  exact Or.inr
                    (Or.inr (by simp [clientSendPhase, ho, hs, hph, jsOr]))
                · exact Or.inl (by
                    simp [respPhase, clientSendPhase, ho, hs, hph, jsOr, he])
          · exact Or.inr (Or.inl (by simp [clientSendPhase, ho, hs]))
    · exact Or.inr (Or.inl (by simp [clientSendPhase, ho]))

/-- Claim C7: answering in `follow_up` appends exactly the popped question
paired verbatim with the answer to `qa_pairs`, and after any further requests
the pair is still there, verbatim and at its position. -/
theorem c7_qa_roundtrip (p : HealthProfile) (q : String)
    (rest : List String) (msg : String) (gen : GenOutcome)
    (is : List StepInput)
    (hp : p.phase = SPhase.follow_up)
    (hq : p.pending_questions = q :: rest) :
    (onboardingStep p msg gen .ok).profile.qa_pairs
      = p.qa_pairs ++ [(q, msg)] ∧
    ∃ t, (onboardingRun (onboardingStep p msg gen .ok).profile is).qa_pairs
        = p.qa_pairs ++ [(q, msg)] ++ t := by
  have h1 : (onboardingStep p msg gen .ok).profile.qa_pairs
      = p.qa_pairs ++ [(q, msg)] := by
    obtain ⟨st, g, qa, pend, ph⟩ := p
    cases ph <;> simp_all [onboardingStep]
  refine ⟨h1, ?_⟩
  obtain ⟨t, ht⟩ := run_qa_extends (onboardingStep p msg gen .ok).profile is
  exact ⟨t, by rw [ht, h1, List.append_assoc]⟩

/-- Concrete instance of the question/answer round trip. -/
theorem c7_qa_roundtrip_witness :
    (onboardingStep ⟨⟨none, none, none, none⟩, some "lose weight", [],
        ["how many days", "what equipment"], SPhase.follow_up⟩
        "3 days" (GenOutcome.ok []) .ok).profile.qa_pairs
      = [] ++ [("how many days", "3 days")] ∧
    ∃ t, (onboardingRun (onboardingStep ⟨⟨none, none, none, none⟩,
          some "lose weight", [], ["how many days", "what equipment"],
          SPhase.follow_up⟩ "3 days" (GenOutcome.ok []) .ok).profile
        [⟨"no machines", GenOutcome.ok [], StoreOutcome.ok⟩]).qa_pairs
      = [] ++ [("how many days", "3 days")] ++ t :=
  c7_qa_roundtrip
    ⟨⟨none, none, none, none⟩, some "lose weight", [],
      ["how many days", "what equipment"], SPhase.follow_up⟩
    "how many days" ["what equipment"] "3 days" (GenOutcome.ok [])
    [⟨"no machines", GenOutcome.ok [], StoreOutcome.ok⟩] rfl rfl

/-- Claim C8: `mapPlanToCalendarEvents` is total — a null plan or non-array
`weeks` yields the empty list; its output is exactly the concatenation of the
per-week, per-day contributions, where falsy weeks, weeks whose `days` is not
an array, falsy days and days without a truthy `date` contribute nothing; and
a produced event has type `rest` exactly when the effective `workoutType`
contains `rest` case-insensitively or the coerced exercises list is empty,
and type `workout` otherwise. -/
theorem c8_plan_mapping (ws : List (Option PlanWeek)) (i j : Nat)
    (d : PlanDay) :
    mapPlanToCalendarEvents none = [] ∧
    mapPlanToCalendarEvents (some ⟨JsArr.notArr⟩) = [] ∧
    mapPlanToCalendarEvents (some ⟨JsArr.arr ws⟩)
      = ws.enum.flatMap weekEvents ∧
    weekEvents (i, none) = [] ∧
    weekEvents (i, some ⟨JsArr.notArr⟩) = [] ∧
    dayEvents i (j, none) = [] ∧
    dayEvents i (j, some d)
      = (if strTruthy d.date then [dayEvent i j d] else []) ∧
    (dayEvent i j d).type
      = (if jsIncludes (toLowerStr (jsOr d.workoutType "Workout")) "rest"
            || d.exercises.elemsD.isEmpty
         then "rest" else "workout") := by
  refine ⟨rfl, rfl, ?_, rfl, rfl, rfl, rfl, rfl⟩
  simp [mapPlanToCalendarEvents, foldl_pushWeek]

/-- Claim C9: each mobile API wrapper is a total function of its collaborator
outcomes returning a record with a boolean success flag (the try/catch is the
match on the outcome, so no outcome escapes as a throw), and whenever success
is false for register, login, logout or sendMessage the record carries an
error string; checkSession reports bare success or failure. -/
theorem c9_api_wrappers (α : Type) (oR oM oC : AxiosOutcome α)
    (oL : AxiosOutcome LoginData) (st stL : StorageOutcome) (d : α)
    (e : AxiosError) :
    ((authRegister α oR).success = true
      ∨ ∃ s, (authRegister α oR).error = some s) ∧
    ((authLogin oL stL).success = true
      ∨ ∃ s, (authLogin oL stL).error = some s) ∧
    ((authLogout st).success = true
      ∨ ∃ s, (authLogout st).error = some s) ∧
    ((chatSendMessage α oM).success = true
      ∨ ∃ s, (chatSendMessage α oM).error = some s) ∧
    ((authCheckSession α oC).success = true
      ∨ (authCheckSession α oC) = ⟨false, none, none⟩) ∧
    authCheckSession α (AxiosOutcome.ok d) = ⟨true, none, some d⟩ ∧
    authCheckSession α (AxiosOutcome.err e) = ⟨false, none, none⟩ := by
  refine ⟨?_, ?_, ?_, ?_, ?_, rfl, rfl⟩
  · cases oR with
    | ok d2 => exact Or.inl rfl
    | err e2 => exact Or.inr ⟨_, rfl⟩
  · cases oL with
    | ok d2 =>
        obtain ⟨u⟩ := d2
        cases u <;> cases stL <;>
          first
            | exact Or.inl rfl
            | exact Or.inr ⟨_, rfl⟩
    | err e2 => exact Or.inr ⟨_, rfl⟩
  · cases st with
    | ok => exact Or.inl rfl
    | throws => exact Or.inr ⟨_, rfl⟩
  · cases oM with
    | ok d2 => exact Or.inl rfl
    | err e2 => exact Or.inr ⟨_, rfl⟩
  · cases oC with
    | ok d2 => exact Or.inl rfl
    | err e2 => exact Or.inr rfl

/-- Claim C10: while the cached phase is `ask_fixed`, `ask_goal` or
`follow_up`, a generate-plan click issues no request, renders only the
complete-the-setup-first message, and does not disable the button. -/
theorem c10_generate_plan_guard (ph : Option String) (u : UserProfile)
    (o : ChatOutcome)
    (h : ph = some "ask_fixed" ∨ ph = some "ask_goal"
      ∨ ph = some "follow_up") :
    generatePlanClick ph u o = ⟨[], [some setupFirstMsg], false⟩ := by
  have hph : isOnboardingPhase ph = true := by
    rcases h with h | h | h <;> subst h <;> decide
  simp [generatePlanClick, hph]

/-- Concrete instance of the generate-plan guard. -/
theorem c10_generate_plan_guard_witness :
    generatePlanClick (some "ask_goal") ⟨none, none, none, none, none⟩
        ChatOutcome.networkError
      = ⟨[], [some setupFirstMsg], false⟩ :=
  c10_generate_plan_guard _ _ _ (Or.inr (Or.inl rfl))

end GymApp
